import Mathlib

/-!
Shallow embedding of the orchestration and validation core of the
nasa-power-cities repository (file nasa_power_query.py), together with
theorems settling the frozen claims about its specification.

Modelling conventions:
- Python runtime values that reach the validation code are modelled by the
  inductive type PyVal (strings, integers, lists, an opaque mapping).
- Python exceptions are modelled by PyError (TypeError, ValueError, NameError
  classes); message text is not modelled.
- Python dicts keyed by city name are modelled by association lists with
  last-write-wins insertion (dictInsert), preserving insertion order.
- External collaborators (the geocoding provider, the HTTP transport, the
  JSON parser, the scraped option list) are parameters of the functions that
  consume them, so every code path of the source is a total Lean function of
  those oracles.
- The source mutates one shared base_params dict while filling params_cities,
  so every stored per-city parameter set aliases the same dict; the model
  reflects this by computing the single final latitude/longitude slot that all
  issued requests observe.
-/

namespace NasaPower

/-- City and parameter names used by the concrete test inputs. -/
def cParis : String := "Paris"

def cTokyo : String := "Tokyo"

def cAtlantis : String := "Atlantis"

def cT2M : String := "T2M"

def cT2Mlabel : String := "Temperature at 2 Meters"

def cPlaceholder : String := "Select a parameter..."

def cJSON : String := "JSON"

def cSB : String := "SB"

def cAddrP : String := "addressParis"

def cAddrT : String := "addressTokyo"

def cRawP : String := "rawParis"

def cRawT : String := "rawTokyo"

def cPH1 : String := "PH1"

def cLabel2 : String := "SomeLabel"

/-- Model of the Python values that reach the validated code paths:
strings, integers, lists, and an opaque mapping. -/
inductive PyVal : Type where
  | str (s : String)
  | int (n : Int)
  | list (xs : List PyVal)
  | dict

/-- isinstance(v, str) -/
def PyVal.isStr : PyVal → Bool
  | .str _ => true
  | _ => false

/-- Python int(v) coercion: succeeds on ints and on strings holding an
integer literal, fails elsewhere (modelled for the value shapes that occur). -/
def pyToInt : PyVal → Option Int
  | .int n => some n
  | .str s => s.toInt?
  | _ => none

/-- The exception classes raised by the source; message text is not modelled. -/
inductive PyError : Type where
  | typeError
  | valueError
  | nameError
  deriving DecidableEq

/-- Python dict assignment d[k] = v on an association list: overwrite in
place when the key exists, append otherwise (insertion order preserved). -/
def dictInsert {β : Type} : List (String × β) → String → β → List (String × β)
  | [], k, v => [(k, v)]
  | (k0, v0) :: rest, k, v =>
    if k0 = k then (k, v) :: rest else (k0, v0) :: dictInsert rest k v

/-- Python dict lookup d.get(k). -/
def lookupD {β : Type} : List (String × β) → String → Option β
  | [], _ => none
  | (k0, v0) :: rest, k => if k0 = k then some v0 else lookupD rest k

/-- The key list of a modelled dict. -/
def keys {β : Type} (l : List (String × β)) : List String := l.map Prod.fst

/-- Iterating for city in self._names as dict insertion keys: first
occurrence order, duplicates collapsed. -/
def dedupKeys (names : List String) : List String :=
  names.foldl (fun acc c => if c ∈ acc then acc else acc ++ [c]) []

/-- all(isinstance(city, str) for city in names), returning the strings. -/
def allStrs : List PyVal → Option (List String)
  | [] => some []
  | .str s :: rest => (allStrs rest).map (fun ss => s :: ss)
  | _ :: _ => none

/-- NasaPowerCities._validate_names: a lone string is wrapped in a
one-element list; a non-list raises TypeError; a list with a non-string
element raises TypeError; otherwise the list is returned unchanged. -/
def validate_names (names : PyVal) : Except PyError (List String) :=
  let names1 := match names with
    | .str s => PyVal.list [PyVal.str s]
    | v => v
  match names1 with
  | .list xs =>
    match allStrs xs with
    | some ss => .ok ss
    | none => .error .typeError
  | _ => .error .typeError

/-- The mutable state of a NasaPowerCities instance. The coordinate value
type is a parameter since the source only carries latitude/longitude pairs
around without computing on them. -/
structure CityState (α : Type) : Type where
  names : List String
  addresses : Option (List String)
  coordinates : Option (List (String × (α × α)))
  geodetails : Option (List (String × String))

/-- NasaPowerCities.__init__: validate the names and set every derived
attribute to None. -/
def init_city_state (α : Type) (names : PyVal) : Except PyError (CityState α) :=
  match validate_names names with
  | .error e => .error e
  | .ok ns => .ok ⟨ns, none, none, none⟩

/-- The names property setter: re-validate and replace names, leaving the
derived attributes untouched. -/
def set_names {α : Type} (s : CityState α) (v : PyVal) : Except PyError (CityState α) :=
  match validate_names v with
  | .error e => .error e
  | .ok ns => .ok ⟨ns, s.addresses, s.coordinates, s.geodetails⟩

/-- A successful geocoding response: address string, latitude, longitude,
and the raw provider record (modelled as a string). -/
structure Location (α : Type) : Type where
  address : String
  latitude : α
  longitude : α
  raw : String

/-- Outcome of one call to the wrapped geocode function: a location, a
no-match (Python None), or a raised exception. -/
inductive GeoOutcome (α : Type) : Type where
  | found (loc : Location α)
  | noneFound
  | raised

/-- The loop body of get_geocoding_details. The second argument models the
Python local variable location: the outer Option is definedness (none means
the variable was never assigned, so reading it raises NameError), the inner
Option is the provider result (None or a location). On a raised provider
exception the except clause only prints, leaving location at its previous
value. -/
def geoLoop {α : Type} (g : String → GeoOutcome α) :
    List String → Option (Option (Location α)) → List String →
    List (String × (α × α)) → List (String × String) →
    Except PyError (List String × List (String × (α × α)) × List (String × String))
  | [], _, addrs, coords, geos => .ok (addrs, coords, geos)
  | c :: rest, locv, addrs, coords, geos =>
    let loc2 : Option (Option (Location α)) :=
      match g c with
      | .found l => some (some l)
      | .noneFound => some none
      | .raised => locv
    match loc2 with
    | none => .error .nameError
    | some none => geoLoop g rest (some none) addrs coords geos
    | some (some l) =>
      geoLoop g rest (some (some l)) (addrs ++ [l.address])
        (dictInsert coords c (l.latitude, l.longitude))
        (dictInsert geos c l.raw)

/-- NasaPowerCities.get_geocoding_details, as a function of the provider
oracle and the name list: builds fresh containers and traverses the names. -/
def get_geocoding_details {α : Type} (g : String → GeoOutcome α) (names : List String) :
    Except PyError (List String × List (String × (α × α)) × List (String × String)) :=
  geoLoop g names none [] [] []

/-- Running get_geocoding_details on an instance: on success the three
derived attributes are wholesale replaced; on an escaping exception the
state is left untouched. -/
def run_geocoding {α : Type} (g : String → GeoOutcome α) (s : CityState α) :
    Except PyError (CityState α) :=
  match get_geocoding_details g s.names with
  | .error e => .error e
  | .ok (a, c, d) => .ok ⟨s.names, some a, some c, some d⟩

/-- The instance state observed after a call to get_geocoding_details,
whether or not the call escaped with an exception. -/
def stateAfterGeo {α : Type} (g : String → GeoOutcome α) (s : CityState α) : CityState α :=
  match run_geocoding g s with
  | .ok s2 => s2
  | .error _ => s

/-- The arguments of NasaPowerCities.fetch_climatology. Option models the
Python default None for start and end. -/
structure FetchArgs : Type where
  climate_params : PyVal
  community : PyVal
  format : PyVal
  start : Option PyVal
  end_ : Option PyVal

/-- start = int(start) if start is not None else None, with the bare except
re-raised as TypeError. -/
def coerceOpt (v : Option PyVal) : Except PyError (Option Int) :=
  match v with
  | none => .ok none
  | some u =>
    match pyToInt u with
    | some n => .ok (some n)
    | none => .error .typeError

/-- The validation prefix of fetch_climatology (source lines 198-223), in
source order: climate_params must be a list of at most 20 entries; the
community/format check fires only when BOTH are non-strings (the source
combines the two isinstance tests with and); start and end are coerced to
int; exactly one of start/end present is a ValueError; start greater than
end is a ValueError. -/
def validate_fetch (a : FetchArgs) : Except PyError (Option Int × Option Int) :=
  match a.climate_params with
  | PyVal.list ps =>
    if ps.length > 20 then .error .valueError
    else if !a.community.isStr && !a.format.isStr then .error .typeError
    else
      match coerceOpt a.start with
      | .error e => .error e
      | .ok st =>
        match coerceOpt a.end_ with
        | .error e => .error e
        | .ok en =>
          match st, en with
          | none, some _ => .error .valueError
          | some _, none => .error .valueError
          | some x, some y => if x > y then .error .valueError else .ok (some x, some y)
          | none, none => .ok (none, none)
  | _ => .error .typeError

/-- format == "JSON" under Python equality: true only for the string JSON. -/
def PyVal.isJsonFormat : PyVal → Bool
  | .str s => s == cJSON
  | _ => false

/-- The observable result of fetch_climatology: the list of issued HTTP
requests (city name plus the latitude/longitude slot the shared params dict
holds at request time) and either the climatologies mapping or the escaped
exception. -/
structure FetchResult (α γ : Type) : Type where
  requests : List (String × Option (α × α))
  outcome : Except PyError (List (String × γ))

/-- The request loop of fetch_climatology (source lines 267-284). net models
requests.get plus raise_for_status: none means the RequestException path
(caught, printed). parse models resp.json(); content models resp.content.
The locals resp and data persist across iterations; reading either while
still unassigned raises NameError, uncaught for the final dict write. -/
def climLoop {α δ γ : Type} (net : String → Option δ) (parse : δ → Option γ)
    (content : δ → γ) (isJson : Bool) (ll : Option (α × α)) :
    List String → Option δ → Option γ → List (String × γ) →
    List (String × Option (α × α)) → FetchResult α γ
  | [], _, _, clim, reqs => ⟨reqs, .ok clim⟩
  | c :: rest, respv, datav, clim, reqs =>
    let reqs2 := reqs ++ [(c, ll)]
    let resp2 : Option δ :=
      match net c with
      | some r => some r
      | none => respv
    if isJson then
      let data2 : Option γ :=
        match resp2 with
        | none => datav
        | some r =>
          match parse r with
          | some d => some d
          | none => datav
      match data2 with
      | none => ⟨reqs2, .error .nameError⟩
      | some d =>
        climLoop net parse content isJson ll rest resp2 (some d) (dictInsert clim c d) reqs2
    else
      match resp2 with
      | none => ⟨reqs2, .error .nameError⟩
      | some r =>
        climLoop net parse content isJson ll rest resp2 (some (content r))
          (dictInsert clim c (content r)) reqs2

/-- NasaPowerCities.fetch_climatology: validation, the None check on
coordinates, the params_cities construction loop (which adds EVERY name as a
key, the else branch only mutating the single shared base_params dict, so
each stored entry aliases it and every request later observes the last
latitude/longitude written), then the request loop. -/
def fetch_climatology {α δ γ : Type} (net : String → Option δ) (parse : δ → Option γ)
    (content : δ → γ) (s : CityState α) (a : FetchArgs) : FetchResult α γ :=
  match validate_fetch a with
  | .error e => ⟨[], .error e⟩
  | .ok _ =>
    match s.coordinates with
    | none => ⟨[], .error .valueError⟩
    | some coords =>
      let ll : Option (α × α) :=
        s.names.foldl (fun acc c =>
          match lookupD coords c with
          | some p => some p
          | none => acc) none
      climLoop net parse content a.format.isJsonFormat ll (dedupKeys s.names) none none [] []

/-- One option element of the scraped select control. -/
structure HtmlOption : Type where
  value : String
  text : String

/-- The filter step of get_nasapower_params: keep the option only when its
value attribute is non-empty and its text is not the placeholder. -/
def catalogStep (acc : List (String × String)) (o : HtmlOption) : List (String × String) :=
  if o.value ≠ "" ∧ o.text ≠ cPlaceholder then dictInsert acc o.value o.text else acc

/-- The option-reading loop of get_nasapower_params over the already-loaded
option list. -/
def get_nasapower_params (options : List HtmlOption) : List (String × String) :=
  options.foldl catalogStep []

/-- fetch_climatology raised before reaching the request loop: no request
issued and the outcome is an escaped exception. -/
def failsFast {α γ : Type} (r : FetchResult α γ) : Prop :=
  r.requests = [] ∧ ∃ e, r.outcome = Except.error e

/-- Geocoding provider for the C3 scenario: succeeds for Paris and Tokyo,
raises for every other name. -/
def g3 : String → GeoOutcome Nat := fun c =>
  if c = cParis then .found ⟨cAddrP, 1, 2, cRawP⟩
  else if c = cTokyo then .found ⟨cAddrT, 3, 4, cRawT⟩
  else .raised

/-- Provider succeeding only for Paris, raising elsewhere. -/
def g6 : String → GeoOutcome Nat := fun c =>
  if c = cParis then .found ⟨cAddrP, 1, 2, cRawP⟩ else .raised

/-- Provider returning no match for every name. -/
def g9 : String → GeoOutcome Nat := fun _ => GeoOutcome.noneFound

/-- Valid fetch arguments: one parameter, community SB, format JSON, no
year range. -/
def argsOk : FetchArgs :=
  ⟨PyVal.list [PyVal.str cT2M], PyVal.str cSB, PyVal.str cJSON, none, none⟩

/-- Fetch arguments with a non-string community and a string format. -/
def args4 : FetchArgs :=
  ⟨PyVal.list [PyVal.str cT2M], PyVal.int 1, PyVal.str cJSON, none, none⟩

/-- Fetch arguments with community and format both non-strings. -/
def args4b : FetchArgs :=
  ⟨PyVal.list [PyVal.str cT2M], PyVal.int 1, PyVal.int 2, none, none⟩

/-- Fetch arguments with 21 climate parameters. -/
def a21 : FetchArgs :=
  ⟨PyVal.list (List.replicate 21 (PyVal.str cT2M)), PyVal.str cSB, PyVal.str cJSON, none, none⟩

/-- Fetch arguments giving start without end. -/
def aStartOnly : FetchArgs :=
  ⟨PyVal.list [PyVal.str cT2M], PyVal.str cSB, PyVal.str cJSON, some (PyVal.int 2000), none⟩

/-- Fetch arguments with start greater than end. -/
def aSwapped : FetchArgs :=
  ⟨PyVal.list [PyVal.str cT2M], PyVal.str cSB, PyVal.str cJSON,
    some (PyVal.int 2005), some (PyVal.int 2000)⟩

/-- Fetch arguments whose start is not coercible to an integer. -/
def aBadStart : FetchArgs :=
  ⟨PyVal.list [PyVal.str cT2M], PyVal.str cSB, PyVal.str cJSON,
    some PyVal.dict, some (PyVal.int 2000)⟩

/-- State with three names and coordinates resolved for Paris and Tokyo only. -/
def stPTA : CityState Nat :=
  ⟨[cParis, cTokyo, cAtlantis], none, some [(cParis, (1, 2)), (cTokyo, (3, 4))], none⟩

/-- State with two resolved names. -/
def stPT : CityState Nat :=
  ⟨[cParis, cTokyo], none, some [(cParis, (1, 2)), (cTokyo, (3, 4))], none⟩

/-- State with a single resolved name Tokyo. -/
def stT : CityState Nat := ⟨[cTokyo], none, some [(cTokyo, (3, 4))], none⟩

/-- State with a single resolved name Paris. -/
def stP : CityState Nat := ⟨[cParis], none, some [(cParis, (1, 2))], none⟩

/-- State whose coordinates dict is present but empty. -/
def stEmpty : CityState Nat := ⟨[cParis], none, some [], none⟩

/-- Freshly constructed state: coordinates still None. -/
def sNoGeo : CityState Nat := ⟨[cParis], none, none, none⟩

/-- State for the three-city geocoding scenario, before resolution. -/
def s3 : CityState Nat := ⟨[cParis, cTokyo, cAtlantis], none, none, none⟩

/-- State holding only the unresolvable name. -/
def sA : CityState Nat := ⟨[cAtlantis], none, none, none⟩

/-- Transport oracle succeeding for every city with body 7. -/
def net7 : String → Option Nat := fun _ => some 7

/-- Transport oracle succeeding for Paris with body 11 and failing at the
network level for every other city. -/
def net2 : String → Option Nat := fun c => if c = cParis then some 11 else none

/-- Transport oracle failing for every city. -/
def netFail : String → Option Nat := fun _ => none

/-- JSON parser oracle that always succeeds, returning the body. -/
def parseId : Nat → Option Nat := fun d => some d

/-- resp.content oracle. -/
def contentId : Nat → Nat := fun d => d

/-- The operation sequence of the C6 counterexample: construct from the
single name Paris, resolve geocoding, then replace names with Tokyo. -/
def c6chain : Except PyError (CityState Nat) :=
  (init_city_state Nat (PyVal.str cParis)).bind
    (fun s0 => (run_geocoding g6 s0).bind
      (fun s1 => set_names s1 (PyVal.str cTokyo)))

/-- Claim C1: the source prints a skip notice for a name without
coordinates but still stores it in params_cities, and every stored entry
aliases the one shared base_params dict. Evaluated at names Paris, Tokyo,
Atlantis with coordinates only for Paris and Tokyo: three requests are
issued, all three carrying the lastly written Tokyo latitude/longitude, and
the climatologies mapping gains an Atlantis entry. -/
theorem C1_fetch_requests_evaluation :
    (fetch_climatology net7 parseId contentId stPTA argsOk).requests
      = [(cParis, some (3, 4)), (cTokyo, some (3, 4)), (cAtlantis, some (3, 4))] ∧
    (fetch_climatology net7 parseId contentId stPTA argsOk).requests.length = 3 ∧
    (fetch_climatology net7 parseId contentId stPTA argsOk).outcome
      = Except.ok [(cParis, 7), (cTokyo, 7), (cAtlantis, 7)] :=
  ⟨rfl, rfl, rfl⟩

/-- Claim C2: after a caught network failure the source still executes
climatologies[city] = data with the stale locals. Evaluated twice: with
Paris succeeding (body 11) and Tokyo failing, Tokyo receives the Paris
data; with the very first request failing, the undefined local escapes as a
NameError and the whole batch aborts. -/
theorem C2_stale_data_evaluation :
    (fetch_climatology net2 parseId contentId stPT argsOk).outcome
      = Except.ok [(cParis, 11), (cTokyo, 11)] ∧
    (fetch_climatology netFail parseId contentId stT argsOk).outcome
      = Except.error PyError.nameError :=
  ⟨rfl, rfl⟩

/-- Claim C3: in get_geocoding_details the local variable location survives
a caught provider exception, so the failing name Atlantis is stored with
the previous Tokyo coordinates, address, and raw record; and when the very
first lookup raises, reading the never-assigned local escapes as a
NameError. -/
theorem C3_geocoding_stale_location_evaluation :
    run_geocoding g3 s3
      = Except.ok ⟨[cParis, cTokyo, cAtlantis],
          some [cAddrP, cAddrT, cAddrT],
          some [(cParis, (1, 2)), (cTokyo, (3, 4)), (cAtlantis, (3, 4))],
          some [(cParis, cRawP), (cTokyo, cRawT), (cAtlantis, cRawT)]⟩ ∧
    run_geocoding g3 sA = Except.error PyError.nameError :=
  ⟨rfl, rfl⟩

/-- Claim C4: the source combines the community and format isinstance tests
with and, so a non-string community together with a string format passes
validation and a request is still issued; only when both are non-strings is
a TypeError raised. -/
theorem C4_community_type_check_evaluation :
    validate_fetch args4 = Except.ok (none, none) ∧
    (fetch_climatology net7 parseId contentId stP args4).requests = [(cParis, some (1, 2))] ∧
    validate_fetch args4b = Except.error PyError.typeError :=
  ⟨rfl, rfl, rfl⟩

/-- Claim C5 counterexample: with a present but empty coordinates mapping
the None check passes, a request is issued for Paris with no
latitude/longitude slot ever filled, and the fetch completes instead of
raising a precondition error. -/
theorem C5_empty_coordinates_counterexample :
    (fetch_climatology net7 parseId contentId stEmpty argsOk).requests = [(cParis, none)] ∧
    (fetch_climatology net7 parseId contentId stEmpty argsOk).outcome
      = Except.ok [(cParis, 7)] :=
  ⟨rfl, rfl⟩

/-- Claim C5 amended: only an unset (None) coordinates attribute makes
fetch_climatology raise the precondition ValueError before issuing any
request; the arguments are assumed to pass validation. -/
theorem C5_unset_coordinates_precondition {α δ γ : Type} (net : String → Option δ)
    (parse : δ → Option γ) (content : δ → γ) (s : CityState α) (a : FetchArgs)
    (p : Option Int × Option Int) (hval : validate_fetch a = Except.ok p)
    (hco : s.coordinates = none) :
    fetch_climatology net parse content s a
      = ⟨[], Except.error PyError.valueError⟩ := by
  unfold fetch_climatology
  rw [hval, hco]

/-- Witness for the amended claim C5 at a concrete freshly built state. -/
theorem C5_unset_coordinates_precondition_witness :
    fetch_climatology net7 parseId contentId sNoGeo argsOk
      = ⟨[], Except.error PyError.valueError⟩ :=
  C5_unset_coordinates_precondition net7 parseId contentId sNoGeo argsOk
    (none, none) rfl rfl

/-- Claim C6 counterexample: construct from Paris, resolve geocoding, then
replace the names with Tokyo; the coordinates mapping still holds the key
Paris, which is not among the current names, so the key sets are not a
subset of names after this operation sequence. -/
theorem C6_replace_names_counterexample :
    c6chain = Except.ok ⟨[cTokyo], some [cAddrP],
        some [(cParis, (1, 2))], some [(cParis, cRawP)]⟩ ∧
    ¬ (keys [(cParis, ((1 : Nat), (2 : Nat)))] ⊆ [cTokyo]) := by
  refine ⟨rfl, fun h => ?_⟩
  have h1 : cParis ∈ keys [(cParis, ((1 : Nat), (2 : Nat)))] := by
    simp [keys]
  have h2 := h h1
  rw [List.mem_singleton] at h2
  exact absurd h2 (by decide)

lemma mem_keys_dictInsert {β : Type} (l : List (String × β)) (k : String) (v : β)
    (a : String) : a ∈ keys (dictInsert l k v) ↔ a ∈ keys l ∨ a = k := by
  induction l with
  | nil => simp [dictInsert, keys]
  | cons hd tl ih =>
    obtain ⟨k0, v0⟩ := hd
    by_cases hk : k0 = k
    · subst hk
      simp [dictInsert, keys]
      tauto
    · simp only [dictInsert, if_neg hk, keys, List.map_cons, List.mem_cons]
      rw [show keys (dictInsert tl k v) = (dictInsert tl k v).map Prod.fst from rfl] at ih
      rw [show keys tl = tl.map Prod.fst from rfl] at ih
      tauto

lemma geoLoop_keys {α : Type} (g : String → GeoOutcome α) :
    ∀ (names : List String) (locv : Option (Option (Location α)))
      (addrs : List String) (coords : List (String × (α × α)))
      (geos : List (String × String)) (a : List String)
      (c : List (String × (α × α))) (d : List (String × String)),
      geoLoop g names locv addrs coords geos = Except.ok (a, c, d) →
      (∀ x, x ∈ keys c → x ∈ keys coords ∨ x ∈ names) ∧
      (∀ x, x ∈ keys d → x ∈ keys geos ∨ x ∈ names) := by
  intro names
  induction names with
  | nil =>
    intro locv addrs coords geos a c d h
    simp only [geoLoop, Except.ok.injEq, Prod.mk.injEq] at h
    obtain ⟨-, hc, hd⟩ := h
    subst hc; subst hd
    exact ⟨fun x hx => Or.inl hx, fun x hx => Or.inl hx⟩
  | cons c0 rest ih =>
    intro locv addrs coords geos a c d h
    simp only [geoLoop] at h
    have step :
        ∀ (loc1 : Option (Option (Location α))),
          (match loc1 with
            | none => Except.error PyError.nameError
            | some none => geoLoop g rest (some none) addrs coords geos
            | some (some l) =>
              geoLoop g rest (some (some l)) (addrs ++ [l.address])
                (dictInsert coords c0 (l.latitude, l.longitude))
                (dictInsert geos c0 l.raw)) = Except.ok (a, c, d) →
          (∀ x, x ∈ keys c → x ∈ keys coords ∨ x ∈ c0 :: rest) ∧
          (∀ x, x ∈ keys d → x ∈ keys geos ∨ x ∈ c0 :: rest) := by
      intro loc1 h1
      match loc1 with
      | none => exact Except.noConfusion h1
      | some none =>
        obtain ⟨hc, hd⟩ := ih (some none) addrs coords geos a c d h1
        refine ⟨fun x hx => ?_, fun x hx => ?_⟩
        · rcases hc x hx with h2 | h2
          · exact Or.inl h2
          · exact Or.inr (List.mem_cons_of_mem c0 h2)
        · rcases hd x hx with h2 | h2
          · exact Or.inl h2
          · exact Or.inr (List.mem_cons_of_mem c0 h2)
      | some (some l) =>
        obtain ⟨hc, hd⟩ := ih (some (some l)) (addrs ++ [l.address])
          (dictInsert coords c0 (l.latitude, l.longitude))
          (dictInsert geos c0 l.raw) a c d h1
        refine ⟨fun x hx => ?_, fun x hx => ?_⟩
        · rcases hc x hx with h2 | h2
          · rcases (mem_keys_dictInsert coords c0 _ x).mp h2 with h3 | h3
            · exact Or.inl h3
            · exact Or.inr (h3 ▸ List.mem_cons_self c0 rest)
          · exact Or.inr (List.mem_cons_of_mem c0 h2)
        · rcases hd x hx with h2 | h2
          · rcases (mem_keys_dictInsert geos c0 _ x).mp h2 with h3 | h3
            · exact Or.inl h3
            · exact Or.inr (h3 ▸ List.mem_cons_self c0 rest)
          · exact Or.inr (List.mem_cons_of_mem c0 h2)
    exact step _ h

/-- Claim C6 amended: construction leaves the coordinates and geodetails
mappings unset, and every completed geocoding run produces key sets inside
the names current at that run; replacing the names afterwards does not
clear the mappings, so the subset relation is not an invariant across a
later names replacement (see the counterexample). -/
theorem C6_keys_subset_after_geocoding :
    (∀ (α : Type) (p : PyVal) (s : CityState α),
      init_city_state α p = Except.ok s → s.coordinates = none ∧ s.geodetails = none) ∧
    (∀ (α : Type) (g : String → GeoOutcome α) (s s2 : CityState α),
      run_geocoding g s = Except.ok s2 →
      keys (s2.coordinates.getD []) ⊆ s.names ∧
      keys (s2.geodetails.getD []) ⊆ s.names) := by
  constructor
  · intro α p s h
    unfold init_city_state at h
    cases hv : validate_names p with
    | error e => rw [hv] at h; exact Except.noConfusion h
    | ok ns =>
      rw [hv] at h
      cases h
      exact ⟨rfl, rfl⟩
  · intro α g s s2 h
    unfold run_geocoding get_geocoding_details at h
    cases hgl : geoLoop g s.names none [] [] [] with
    | error e => rw [hgl] at h; exact Except.noConfusion h
    | ok t =>
      obtain ⟨a, c, d⟩ := t
      rw [hgl] at h
      cases h
      obtain ⟨hc, hd⟩ := geoLoop_keys g s.names none [] [] [] a c d hgl
      constructor
      · intro x hx
        rcases hc x hx with h2 | h2
        · exact absurd h2 (by simp [keys])
        · exact h2
      · intro x hx
        rcases hd x hx with h2 | h2
        · exact absurd h2 (by simp [keys])
        · exact h2

/-- Witness for the amended claim C6: the construction part at the single
name Paris, and the geocoding part with the provider that resolves Paris. -/
theorem C6_keys_subset_after_geocoding_witness :
    ((⟨[cParis], none, none, none⟩ : CityState Nat).coordinates = none ∧
      (⟨[cParis], none, none, none⟩ : CityState Nat).geodetails = none) ∧
    (keys ((⟨[cParis], some [cAddrP], some [(cParis, (1, 2))],
        some [(cParis, cRawP)]⟩ : CityState Nat).coordinates.getD []) ⊆ [cParis] ∧
      keys ((⟨[cParis], some [cAddrP], some [(cParis, (1, 2))],
        some [(cParis, cRawP)]⟩ : CityState Nat).geodetails.getD []) ⊆ [cParis]) := by
  constructor
  · exact C6_keys_subset_after_geocoding.1 Nat (PyVal.str cParis) _ rfl
  · exact C6_keys_subset_after_geocoding.2 Nat g6 ⟨[cParis], none, none, none⟩ _ rfl

lemma coerceOpt_ok (o : Option PyVal) (r : Option Int) (h : coerceOpt o = Except.ok r) :
    (o = none ∧ r = none) ∨
    (∃ u n, o = some u ∧ pyToInt u = some n ∧ r = some n) := by
  cases o with
  | none =>
    simp only [coerceOpt, Except.ok.injEq] at h
    exact Or.inl ⟨rfl, h.symm⟩
  | some u =>
    cases hp : pyToInt u with
    | none => simp [coerceOpt, hp] at h
    | some n =>
      simp only [coerceOpt, hp, Except.ok.injEq] at h
      exact Or.inr ⟨u, n, rfl, hp, h.symm⟩

lemma validate_fetch_ok_inv (a : FetchArgs) (st en : Option Int)
    (h : validate_fetch a = Except.ok (st, en)) :
    (∃ ps, a.climate_params = PyVal.list ps ∧ ps.length ≤ 20) ∧
    ((a.start = none ∧ a.end_ = none) ∨
      (∃ u v x y, a.start = some u ∧ a.end_ = some v ∧
        pyToInt u = some x ∧ pyToInt v = some y ∧ x ≤ y)) := by
  unfold validate_fetch at h
  split at h
  · rename_i ps hps
    split at h
    · exact Except.noConfusion h
    · rename_i h20
      split at h
      · exact Except.noConfusion h
      · split at h
        · exact Except.noConfusion h
        · rename_i st0 hs
          split at h
          · exact Except.noConfusion h
          · rename_i en0 he
            refine ⟨⟨ps, hps, by omega⟩, ?_⟩
            split at h
            · exact Except.noConfusion h
            · exact Except.noConfusion h
            · rename_i x y
              split at h
              · exact Except.noConfusion h
              · rename_i hxy
                rcases coerceOpt_ok _ _ hs with ⟨hs1, hs2⟩ | ⟨u, x2, hu, hx2, hst⟩
                · exact Option.noConfusion hs2
                · rcases coerceOpt_ok _ _ he with ⟨he1, he2⟩ | ⟨v, y2, hv, hy2, hen⟩
                  · exact Option.noConfusion he2
                  · injection hst with hst2
                    injection hen with hen2
                    exact Or.inr ⟨u, v, x2, y2, hu, hv, hx2, hy2, by omega⟩
            · rcases coerceOpt_ok _ _ hs with ⟨hs1, hs2⟩ | ⟨u, x2, hu, hx2, hst⟩
              · rcases coerceOpt_ok _ _ he with ⟨he1, he2⟩ | ⟨v, y2, hv, hy2, hen⟩
                · exact Or.inl ⟨hs1, he1⟩
                · exact Option.noConfusion hen
              · exact Option.noConfusion hst
  · exact Except.noConfusion h

lemma fetch_failsFast {α δ γ : Type} (net : String → Option δ) (parse : δ → Option γ)
    (content : δ → γ) (s : CityState α) (a : FetchArgs)
    (h : ∀ p : Option Int × Option Int, validate_fetch a ≠ Except.ok p) :
    failsFast (fetch_climatology net parse content s a) := by
  cases hv : validate_fetch a with
  | error e =>
    refine ⟨?_, e, ?_⟩ <;> simp [fetch_climatology, hv]
  | ok p => exact absurd hv (h p)

/-- Claim C7: fetch_climatology raises before issuing any request when the
climate parameter list has length 21, when exactly one of start and end is
given, when both are given with start greater than end, and when a given
start or end is not coercible to an integer. -/
theorem C7_fetch_fails_fast {α δ γ : Type} (net : String → Option δ)
    (parse : δ → Option γ) (content : δ → γ) (s : CityState α) (a : FetchArgs) :
    (∀ ps, a.climate_params = PyVal.list ps → ps.length = 21 →
      failsFast (fetch_climatology net parse content s a)) ∧
    (∀ u, a.start = some u → a.end_ = none →
      failsFast (fetch_climatology net parse content s a)) ∧
    (∀ v, a.start = none → a.end_ = some v →
      failsFast (fetch_climatology net parse content s a)) ∧
    (∀ u v x y, a.start = some u → a.end_ = some v → pyToInt u = some x →
      pyToInt v = some y → y < x →
      failsFast (fetch_climatology net parse content s a)) ∧
    (∀ u, (a.start = some u ∨ a.end_ = some u) → pyToInt u = none →
      failsFast (fetch_climatology net parse content s a)) := by
  refine ⟨?_, ?_, ?_, ?_, ?_⟩
  · intro ps hps h21
    apply fetch_failsFast
    rintro ⟨st, en⟩ hok
    obtain ⟨⟨ps2, hps2, hle⟩, -⟩ := validate_fetch_ok_inv a st en hok
    rw [hps] at hps2
    injection hps2 with hps3
    subst hps3
    omega
  · intro u hu he
    apply fetch_failsFast
    rintro ⟨st, en⟩ hok
    obtain ⟨-, hd⟩ := validate_fetch_ok_inv a st en hok
    rcases hd with ⟨h1, -⟩ | ⟨u2, v2, x, y, -, h2, -⟩
    · rw [hu] at h1; exact Option.noConfusion h1
    · rw [he] at h2; exact Option.noConfusion h2
  · intro v hs he
    apply fetch_failsFast
    rintro ⟨st, en⟩ hok
    obtain ⟨-, hd⟩ := validate_fetch_ok_inv a st en hok
    rcases hd with ⟨-, h1⟩ | ⟨u2, v2, x, y, h2, -⟩
    · rw [he] at h1; exact Option.noConfusion h1
    · rw [hs] at h2; exact Option.noConfusion h2
  · intro u v x y hu hv hx hy hlt
    apply fetch_failsFast
    rintro ⟨st, en⟩ hok
    obtain ⟨-, hd⟩ := validate_fetch_ok_inv a st en hok
    rcases hd with ⟨h1, -⟩ | ⟨u2, v2, x2, y2, h1, h2, h3, h4, h5⟩
    · rw [hu] at h1; exact Option.noConfusion h1
    · rw [hu] at h1
      injection h1 with h1
      subst h1
      rw [hv] at h2
      injection h2 with h2
      subst h2
      rw [hx] at h3
      injection h3 with h3
      rw [hy] at h4
      injection h4 with h4
      omega
  · intro u hor hnone
    apply fetch_failsFast
    rintro ⟨st, en⟩ hok
    obtain ⟨-, hd⟩ := validate_fetch_ok_inv a st en hok
    rcases hor with hu | hu
    · rcases hd with ⟨h1, -⟩ | ⟨u2, v2, x, y, h1, -, h3, -⟩
      · rw [hu] at h1; exact Option.noConfusion h1
      · rw [hu] at h1
        injection h1 with h1
        subst h1
        rw [hnone] at h3
        exact Option.noConfusion h3
    · rcases hd with ⟨-, h1⟩ | ⟨u2, v2, x, y, -, h1, -, h3, -⟩
      · rw [hu] at h1; exact Option.noConfusion h1
      · rw [hu] at h1
        injection h1 with h1
        subst h1
        rw [hnone] at h3
        exact Option.noConfusion h3

/-- Witness for claim C7: the four fail-fast cases exercised at concrete
argument records, each against a live transport oracle. -/
theorem C7_fetch_fails_fast_witness :
    failsFast (fetch_climatology net7 parseId contentId sNoGeo a21) ∧
    failsFast (fetch_climatology net7 parseId contentId sNoGeo aStartOnly) ∧
    failsFast (fetch_climatology net7 parseId contentId sNoGeo aSwapped) ∧
    failsFast (fetch_climatology net7 parseId contentId sNoGeo aBadStart) := by
  refine ⟨?_, ?_, ?_, ?_⟩
  · exact (C7_fetch_fails_fast net7 parseId contentId sNoGeo a21).1
      (List.replicate 21 (PyVal.str cT2M)) rfl (by simp)
  · exact (C7_fetch_fails_fast net7 parseId contentId sNoGeo aStartOnly).2.1
      (PyVal.int 2000) rfl rfl
  · exact (C7_fetch_fails_fast net7 parseId contentId sNoGeo aSwapped).2.2.2.1
      (PyVal.int 2005) (PyVal.int 2000) 2005 2000 rfl rfl rfl rfl (by omega)
  · exact (C7_fetch_fails_fast net7 parseId contentId sNoGeo aBadStart).2.2.2.2
      PyVal.dict (Or.inl rfl) rfl

lemma allStrs_map (ss : List String) : allStrs (ss.map PyVal.str) = some ss := by
  induction ss with
  | nil => rfl
  | cons s rest ih => simp [allStrs, ih]

lemma allStrs_none (xs : List PyVal) (v : PyVal) (hv : v ∈ xs)
    (hs : v.isStr = false) : allStrs xs = none := by
  induction xs with
  | nil => exact absurd hv (List.not_mem_nil v)
  | cons hd tl ih =>
    rcases List.mem_cons.mp hv with h1 | h1
    · subst h1
      cases v with
      | str s => exact absurd hs (by simp [PyVal.isStr])
      | int n => rfl
      | list l => rfl
      | dict => rfl
    · cases hd with
      | str s => simp [allStrs, ih h1]
      | int n => rfl
      | list l => rfl
      | dict => rfl

/-- Claim C8: a single string constructs the one-element name list; a list
of strings is stored unchanged in order; an integer, a mapping, or a list
containing a non-string element is rejected with a TypeError. -/
theorem C8_validate_names_spec :
    (∀ s : String, validate_names (PyVal.str s) = Except.ok [s]) ∧
    (∀ ss : List String, validate_names (PyVal.list (ss.map PyVal.str)) = Except.ok ss) ∧
    (∀ n : Int, validate_names (PyVal.int n) = Except.error PyError.typeError) ∧
    (validate_names PyVal.dict = Except.error PyError.typeError) ∧
    (∀ (xs : List PyVal) (v : PyVal), v ∈ xs → v.isStr = false →
      validate_names (PyVal.list xs) = Except.error PyError.typeError) := by
  refine ⟨?_, ?_, fun n => rfl, rfl, ?_⟩
  · intro s
    rfl
  · intro ss
    show (match allStrs (ss.map PyVal.str) with
      | some ss2 => Except.ok ss2
      | none => Except.error PyError.typeError) = Except.ok ss
    rw [allStrs_map]
  · intro xs v hv hs
    show (match allStrs xs with
      | some ss2 => Except.ok ss2
      | none => Except.error PyError.typeError) = Except.error PyError.typeError
    rw [allStrs_none xs v hv hs]

/-- Witness for claim C8 at concrete construction inputs. -/
theorem C8_validate_names_spec_witness :
    validate_names (PyVal.str cParis) = Except.ok [cParis] ∧
    validate_names (PyVal.list [PyVal.str cParis, PyVal.str cTokyo])
      = Except.ok [cParis, cTokyo] ∧
    validate_names (PyVal.int 5) = Except.error PyError.typeError ∧
    validate_names (PyVal.list [PyVal.str cParis, PyVal.int 3])
      = Except.error PyError.typeError := by
  refine ⟨?_, ?_, ?_, ?_⟩
  · exact C8_validate_names_spec.1 cParis
  · exact C8_validate_names_spec.2.1 [cParis, cTokyo]
  · exact C8_validate_names_spec.2.2.1 5
  · exact C8_validate_names_spec.2.2.2.2 [PyVal.str cParis, PyVal.int 3]
      (PyVal.int 3) (by simp) rfl

/-- Claim C9: running get_geocoding_details twice against the same
deterministic provider with an unchanged name list leaves the coordinates
and geodetails mappings identical after each run, because each run
wholesale-replaces the derived attributes from the names alone. -/
theorem C9_geocoding_idempotent {α : Type} (g : String → GeoOutcome α)
    (s : CityState α) :
    (stateAfterGeo g (stateAfterGeo g s)).coordinates
      = (stateAfterGeo g s).coordinates ∧
    (stateAfterGeo g (stateAfterGeo g s)).geodetails
      = (stateAfterGeo g s).geodetails := by
  cases h : get_geocoding_details g s.names with
  | error e =>
    have h1 : stateAfterGeo g s = s := by
      simp [stateAfterGeo, run_geocoding, h]
    rw [h1, h1]
    exact ⟨rfl, rfl⟩
  | ok t =>
    obtain ⟨a, c, d⟩ := t
    have h1 : stateAfterGeo g s = ⟨s.names, some a, some c, some d⟩ := by
      simp [stateAfterGeo, run_geocoding, h]
    have h2 : stateAfterGeo g (⟨s.names, some a, some c, some d⟩ : CityState α)
        = ⟨s.names, some a, some c, some d⟩ := by
      simp [stateAfterGeo, run_geocoding, h]
    rw [h1, h2]
    exact ⟨rfl, rfl⟩

/-- Witness for claim C9 with an all-no-match provider on one name. -/
theorem C9_geocoding_idempotent_witness :
    (stateAfterGeo g9 (stateAfterGeo g9 sNoGeo)).coordinates
      = (stateAfterGeo g9 sNoGeo).coordinates :=
  (C9_geocoding_idempotent g9 sNoGeo).1

lemma mem_keys_catalogStep (acc : List (String × String)) (o : HtmlOption)
    (a : String) :
    a ∈ keys (catalogStep acc o) ↔
      a ∈ keys acc ∨ (a = o.value ∧ o.value ≠ "" ∧ o.text ≠ cPlaceholder) := by
  unfold catalogStep
  by_cases hc : o.value ≠ "" ∧ o.text ≠ cPlaceholder
  · rw [if_pos hc, mem_keys_dictInsert]
    tauto
  · rw [if_neg hc]
    tauto

lemma mem_keys_catalog_foldl (opts : List HtmlOption) :
    ∀ (acc : List (String × String)) (a : String),
      a ∈ keys (opts.foldl catalogStep acc) ↔
        a ∈ keys acc ∨
          ∃ o, o ∈ opts ∧ a = o.value ∧ o.value ≠ "" ∧ o.text ≠ cPlaceholder := by
  induction opts with
  | nil => intro acc a; simp
  | cons o rest ih =>
    intro acc a
    rw [List.foldl_cons, ih, mem_keys_catalogStep]
    constructor
    · rintro ((h1 | h1) | ⟨o2, h2, h3⟩)
      · exact Or.inl h1
      · exact Or.inr ⟨o, List.mem_cons_self o rest, h1⟩
      · exact Or.inr ⟨o2, List.mem_cons_of_mem o h2, h3⟩
    · rintro (h1 | ⟨o2, h2, h3⟩)
      · exact Or.inl (Or.inl h1)
      · rcases List.mem_cons.mp h2 with h4 | h4
        · subst h4
          exact Or.inl (Or.inr h3)
        · exact Or.inr ⟨o2, h4, h3⟩

/-- Claim C10: a value appears as a key of the discovered catalog mapping
exactly when some option carries it with a non-empty value attribute and a
label other than the placeholder text; on the three-option list of the
claim only the T2M option is retained, under key T2M. -/
theorem C10_catalog_filter :
    get_nasapower_params [⟨cPH1, cPlaceholder⟩, ⟨"", cLabel2⟩, ⟨cT2M, cT2Mlabel⟩]
      = [(cT2M, cT2Mlabel)] ∧
    (∀ (opts : List HtmlOption) (v : String),
      v ∈ keys (get_nasapower_params opts) ↔
        ∃ o, o ∈ opts ∧ v = o.value ∧ o.value ≠ "" ∧ o.text ≠ cPlaceholder) := by
  constructor
  · decide
  · intro opts v
    rw [get_nasapower_params, mem_keys_catalog_foldl]
    simp [keys]

/-- Witness for claim C10: the membership characterization applied to a
one-option list retaining T2M. -/
theorem C10_catalog_filter_witness :
    cT2M ∈ keys (get_nasapower_params [⟨cT2M, cT2Mlabel⟩]) :=
  (C10_catalog_filter.2 [⟨cT2M, cT2Mlabel⟩] cT2M).mpr
    ⟨⟨cT2M, cT2Mlabel⟩, List.mem_singleton.mpr rfl, rfl, by decide, by decide⟩

end NasaPower
